import Mathlib

/-!
Verification of the WakeyWakey alarm-clock server (`server/server.py`,
`server/server_setup.py`) against its natural-language specification.

The sqlite database is embedded as a pair of records mirroring the two
tables created by `server_setup.create_database`:
`server_settings(id, address, port, alarm_state)` and
`user_preferences(id, wakeup_time_hour, wakeup_time_minute, utc_offset,
wakeup_window, active_state)`.  Each table holds exactly one row (id = 1),
so the `id` column is left implicit in the records and reinstated
explicitly where the code reads whole rows (`SELECT *`).  Python integers
become `Int`; Python truthiness of an integer is `≠ 0`.

The wall clock is external to the program (`arrow.utcnow()`), so every
function that reads the current local time takes the parsed
hour/minute/second of `get_local_time` as explicit arguments.
-/

/-- Row of the `server_settings` table (single row, id = 1). -/
structure ServerSettings where
  address : String
  port : Int
  alarm_state : Int
deriving DecidableEq

/-- Row of the `user_preferences` table (single row, id = 1). -/
structure UserPreferences where
  wakeup_time_hour : Int
  wakeup_time_minute : Int
  utc_offset : Int
  wakeup_window : Int
  active_state : Int
deriving DecidableEq

/-- The whole sqlite database at `DATABASE_PATH`. -/
structure Database where
  server_settings : ServerSettings
  user_preferences : UserPreferences
deriving DecidableEq

/-- `server_setup.create_database`: creates the two tables and inserts the
initial rows `("", 49500, 0)` and `(16, 00, 2, 5, 0)`. -/
def create_database : Database :=
  { server_settings := { address := "", port := 49500, alarm_state := 0 }
    user_preferences :=
      { wakeup_time_hour := 16, wakeup_time_minute := 0, utc_offset := 2,
        wakeup_window := 5, active_state := 0 } }

/-- `server.set_alarm_state`: `db_set("alarm_state", "server_settings", "id", 1, v)`. -/
def set_alarm_state (v : Int) (db : Database) : Database :=
  { db with server_settings := { db.server_settings with alarm_state := v } }

/-- `server.set_active_state`: `db_set("active_state", "user_preferences", "id", 1, v)`. -/
def set_active_state (v : Int) (db : Database) : Database :=
  { db with user_preferences := { db.user_preferences with active_state := v } }

/-- `server.set_wakeup_hour`: `db_set("wakeup_time_hour", "user_preferences", "id", 1, v)`.
No range check is performed by the source. -/
def set_wakeup_hour (v : Int) (db : Database) : Database :=
  { db with user_preferences := { db.user_preferences with wakeup_time_hour := v } }

/-- `server.set_wakeup_minute`: `db_set("wakeup_time_minute", "user_preferences", "id", 1, v)`. -/
def set_wakeup_minute (v : Int) (db : Database) : Database :=
  { db with user_preferences := { db.user_preferences with wakeup_time_minute := v } }

/-- `server.set_wakeup_window`: `db_set("wakeup_window", "user_preferences", "id", 1, v)`. -/
def set_wakeup_window (v : Int) (db : Database) : Database :=
  { db with user_preferences := { db.user_preferences with wakeup_window := v } }

/-- `server.set_utc_offset`: `db_set("utc_offset", "user_preferences", "id", 1, v)`. -/
def set_utc_offset (v : Int) (db : Database) : Database :=
  { db with user_preferences := { db.user_preferences with utc_offset := v } }

/-- `server.get_alarm_state`: reads `alarm_state` from `server_settings`. -/
def get_alarm_state (db : Database) : Int :=
  db.server_settings.alarm_state

/-- `server.get_active_state`: reads `active_state` from `user_preferences`. -/
def get_active_state (db : Database) : Int :=
  db.user_preferences.active_state

/-- `server.get_wakeup_window`: reads `wakeup_window` from `user_preferences`. -/
def get_wakeup_window (db : Database) : Int :=
  db.user_preferences.wakeup_window

/-- `server.load_settings("minimal")`: returns
`(wakeup_time_hour, wakeup_time_minute, utc_offset)`. -/
def load_settings_minimal (db : Database) : Int × Int × Int :=
  (db.user_preferences.wakeup_time_hour, db.user_preferences.wakeup_time_minute,
   db.user_preferences.utc_offset)

/-- The spec name `silence()` denotes the `set_alarm_state 0` path
(CommandProtocol handler for `set_alarm_state 0`). -/
def silence (db : Database) : Database :=
  set_alarm_state 0 db

/-- The state resets at the top of `server.py`'s startup routine:
`set_active_state(0); set_alarm_state(0)`, executed unconditionally before
the main loop starts. -/
def startup_state_reset (db : Database) : Database :=
  set_alarm_state 0 (set_active_state 0 db)

set_option maxRecDepth 20000

/-- `SECONDS_IN_A_DAY` from server.py. -/
def SECONDS_IN_A_DAY : Int := 86400

/-- `server.convert_to_seconds`: `((days * 24 + hour) * 60 + minutes) * 60 + seconds`. -/
def convert_to_seconds (days hour minutes seconds : Int) : Int :=
  ((days * 24 + hour) * 60 + minutes) * 60 + seconds

/-- `server.current_time_in_seconds`: parses the `HH:mm:ss` local time into
hour/minute/second (taken here as arguments, the clock being external) and
totals them with `convert_to_seconds 0`. -/
def current_time_in_seconds (curHour curMinute curSecond : Int) : Int :=
  convert_to_seconds 0 curHour curMinute curSecond

/-- `server.seconds_until_wakeup_time`: loads the stored wakeup hour/minute,
converts to a seconds-of-day timestamp, subtracts the current seconds-of-day,
and adds a day when the difference is negative. -/
def seconds_until_wakeup_time (db : Database) (curHour curMinute curSecond : Int) : Int :=
  let wakeup_timestamp_in_seconds :=
    convert_to_seconds 0 db.user_preferences.wakeup_time_hour
      db.user_preferences.wakeup_time_minute 0
  let seconds_left :=
    wakeup_timestamp_in_seconds - current_time_in_seconds curHour curMinute curSecond
  if seconds_left < 0 then seconds_left + SECONDS_IN_A_DAY else seconds_left

/-- One tick of `server.main`'s loop after the 5-second delay: if
`get_active_state()` is truthy, compute `seconds_left`; when
`seconds_left <= get_wakeup_window() * 60`, alarm mode is entered with that
`seconds_left` as countdown (`some`), otherwise nothing happens (`none`). -/
def main_loop_tick (db : Database) (curHour curMinute curSecond : Int) : Option Int :=
  if get_active_state db ≠ 0 then
    let seconds_left := seconds_until_wakeup_time db curHour curMinute curSecond
    if seconds_left ≤ get_wakeup_window db * 60 then some seconds_left else none
  else none

/-- The countdown phase of `server.alarm_mode`: `time.sleep(countdown)`
followed by `set_alarm_state(1)`.  The sleep duration is the `countdown`
argument alone — the store is not read during the wait — so we model the
phase as a function of the countdown and of the list of database edits that
concurrent command handlers perform while the process sleeps; it returns the
database at the moment ringing starts, together with the elapsed sleep time. -/
def alarm_mode_countdown (countdown : Int) (edits : List (Database → Database))
    (db : Database) : Database × Int :=
  (set_alarm_state 1 (edits.foldl (fun d e => e d) db), countdown)

/-- Buzzer output states (gpiozero `on()`/`off()`). -/
structure Buzzers where
  buzzer1 : Bool
  buzzer2 : Bool
deriving DecidableEq

/-- The ringing loop of `server.alarm_mode`:
`while get_alarm_state() == 1: play_sound(...); time.sleep(1)`.
The argument lists the values `get_alarm_state()` returns at successive loop
checks (the store is written concurrently by command handlers).  Returns the
number of completed ring cycles before the loop exits, or `none` if every
listed reading keeps the loop running. -/
def ring_loop_cycles : List Int → Option Nat
  | [] => none
  | r :: rs => if r = 1 then Option.map Nat.succ (ring_loop_cycles rs) else some 0

/-- The epilogue of `server.alarm_mode` after the ringing loop exits:
`set_alarm_state(0); buzzer1.off(); buzzer2.off(); set_active_state(0)`. -/
def alarm_mode_finish (db : Database) : Database × Buzzers :=
  (set_active_state 0 (set_alarm_state 0 db), { buzzer1 := false, buzzer2 := false })

/-!
Python string primitives used by `communication` and `get_user_preferences`,
modelled on `List Char`.  `py_split` is Python's `str.split(sep)` with an
explicit non-empty separator (keeps empty fields, always returns at least one
field); `py_replace` is `str.replace(old, new)` with non-empty `old`;
`py_int` is `int(str)` (surrounding whitespace allowed, one optional sign,
then a non-empty digit run with single underscores permitted between digits),
returning `none` where Python raises `ValueError`.  The separator/pattern is
passed as a head character plus tail, making non-emptiness structural; the
fuel argument equals the input length, and every step consumes at least one
character, so the fuel never runs out.
-/

/-- Boolean list-prefix test. -/
def startsWith : List Char → List Char → Bool
  | [], _ => true
  | _ :: _, [] => false
  | a :: as, b :: bs => a == b && startsWith as bs

/-- Python `str.replace(p :: ps, rep)`, structural in a fuel that starts at
the input length. -/
def py_replace_fuel (p : Char) (ps rep : List Char) : Nat → List Char → List Char
  | _, [] => []
  | 0, s => s
  | Nat.succ f, c :: rest =>
    if startsWith (p :: ps) (c :: rest) then
      rep ++ py_replace_fuel p ps rep f (rest.drop ps.length)
    else
      c :: py_replace_fuel p ps rep f rest

/-- Python `s.replace(p :: ps, rep)`. -/
def py_replace (p : Char) (ps rep s : List Char) : List Char :=
  py_replace_fuel p ps rep s.length s

/-- Python `str.split(p :: ps)`, structural in a fuel that starts at the
input length. -/
def py_split_fuel (p : Char) (ps : List Char) : Nat → List Char → List (List Char)
  | _, [] => [[]]
  | 0, s => [s]
  | Nat.succ f, c :: rest =>
    if startsWith (p :: ps) (c :: rest) then
      [] :: py_split_fuel p ps f (rest.drop ps.length)
    else
      match py_split_fuel p ps f rest with
      | [] => [[c]]
      | g :: gs => (c :: g) :: gs

/-- Python `s.split(p :: ps)`. -/
def py_split (p : Char) (ps s : List Char) : List (List Char) :=
  py_split_fuel p ps s.length s

/-- The whitespace characters Python's `int(str)` strips. -/
def is_py_space (c : Char) : Bool :=
  c = ' ' || c = '\t' || c = '\n' || c = '\r' || c = '\x0b' || c = '\x0c'

/-- Strip `is_py_space` characters from both ends. -/
def strip_ws (s : List Char) : List Char :=
  ((s.dropWhile is_py_space).reverse.dropWhile is_py_space).reverse

/-- After the first digit of a Python integer literal: digits, with single
underscores allowed only between digits. -/
def py_digits_tail : List Char → Bool
  | [] => true
  | c :: rest =>
    if c = '_' then
      (match rest with
       | [] => false
       | d :: _ => d.isDigit) && py_digits_tail rest
    else
      c.isDigit && py_digits_tail rest

/-- A non-empty digit run acceptable to Python `int` after sign stripping. -/
def py_digits_ok : List Char → Bool
  | [] => false
  | c :: rest => c.isDigit && py_digits_tail rest

/-- Numeric value of a digit run, skipping underscores. -/
def digits_to_nat (s : List Char) : Nat :=
  s.foldl (fun acc c => if c = '_' then acc else acc * 10 + (c.toNat - 48)) 0

/-- Python `int(str)`: `none` where Python raises `ValueError`. -/
def py_int (s : List Char) : Option Int :=
  match strip_ws s with
  | '+' :: rest => if py_digits_ok rest then some (digits_to_nat rest : Int) else none
  | '-' :: rest => if py_digits_ok rest then some (-(digits_to_nat rest : Int)) else none
  | t => if py_digits_ok t then some (digits_to_nat t : Int) else none


/-- The `CREATE TABLE user_preferences` statement text exactly as
`server_setup.py` wrote it (and as sqlite keeps it in `sqlite_master.sql`):
a newline plus four spaces of indentation sits between the two lines of the
triple-quoted literal. -/
def user_preferences_table_sql : List Char :=
  ("CREATE TABLE user_preferences(id INTEGER PRIMARY KEY, wakeup_time_hour INTEGER,\n    wakeup_time_minute INTEGER, utc_offset INTEGER, wakeup_window INTEGER, active_state INTEGER)").data

/-- The column-name extraction in `server.get_user_preferences`:
`replace("\n    ", " ")`, `split(", ")`, `del [0]` (drops the
`CREATE TABLE ...(id INTEGER PRIMARY KEY` chunk, and with it the `id`
column), then `split(" ")[0]` of each remaining chunk. -/
def user_preferences_column_names : List (List Char) :=
  ((py_split ',' [' ']
      (py_replace '\n' [' ', ' ', ' ', ' '] [' '] user_preferences_table_sql)).drop 1).map
    (fun chunk => (py_split ' ' [] chunk).headD [])

/-- The value row of `SELECT * FROM user_preferences`: the single row has
`id = 1` followed by the five preference columns in table order. -/
def user_preferences_row (db : Database) : List Int :=
  [1, db.user_preferences.wakeup_time_hour, db.user_preferences.wakeup_time_minute,
   db.user_preferences.utc_offset, db.user_preferences.wakeup_window,
   db.user_preferences.active_state]

/-- `server.get_user_preferences`: parses the column names out of the stored
SQL, takes `SELECT *` values with `del [0]`, and zips the two lists into the
dictionary it returns. -/
def get_user_preferences (db : Database) : List (List Char × Int) :=
  List.zip user_preferences_column_names ((user_preferences_row db).drop 1)

/-- Python `str(dict)` for an int-valued dictionary:
`{'key': value, ...}`. -/
def py_dict_repr (d : List (List Char × Int)) : List Char :=
  '\x7b' ::
    (List.intercalate [',', ' ']
      (d.map (fun p => '\x27' :: (p.1 ++ '\x27' :: ':' :: ' ' :: (toString p.2).data)))
      ++ ['\x7d'])

/-- Outcome of one accepted connection in `server.communication`.
`reply body db`: the handler sent `body` and then `client_socket.close()`
ran — the `while True` acceptor loop proceeds to the next connection.
`silent db`: no byte was sent, the socket was closed, the loop proceeds.
`exn db`: an exception (`IndexError`/`ValueError` from `command[1]` /
`int(command[1])`) escaped the loop body; `communication` has no handler, so
the socket is not closed, no reply is sent, and the acceptor loop exits with
the exception.  The database is unchanged in that case. -/
inductive CommResult where
  | reply (body : List Char) (db : Database)
  | silent (db : Database)
  | exn (db : Database)
deriving DecidableEq

/-- Whether the acceptor loop goes on to `s.accept()` the next connection
after this outcome. -/
def acceptor_continues : CommResult → Bool
  | CommResult.exn _ => false
  | _ => true

/-- Body of an `elif` branch of the form
`set_x(int(command[1]))`: Python evaluates `command[1]` (IndexError when
absent) then `int(...)` (ValueError when not an integer literal) and only
then calls the setter. -/
def set_branch (command : List (List Char)) (db : Database)
    (setter : Int → Database → Database) : CommResult :=
  match command.get? 1 with
  | none => CommResult.exn db
  | some a =>
    match py_int a with
    | none => CommResult.exn db
    | some v => CommResult.silent (setter v db)

/-- The dispatch chain of `server.communication` on the token list
`msg.decode("utf-8").split(" ")`, in source order.  An unmatched first token
falls through every `elif` and the socket is simply closed. -/
def handle_command (command : List (List Char)) (db : Database) : CommResult :=
  if command.headD [] = ("get_alarm_state").data then
    CommResult.reply (toString (get_alarm_state db)).data db
  else if command.headD [] = ("set_alarm_state").data then
    set_branch command db set_alarm_state
  else if command.headD [] = ("set_active_state").data then
    set_branch command db set_active_state
  else if command.headD [] = ("set_wakeup_hour").data then
    set_branch command db set_wakeup_hour
  else if command.headD [] = ("set_wakeup_minute").data then
    set_branch command db set_wakeup_minute
  else if command.headD [] = ("set_wakeup_window").data then
    set_branch command db set_wakeup_window
  else if command.headD [] = ("set_utc_offset").data then
    set_branch command db set_utc_offset
  else if command.headD [] = ("get_user_preferences").data then
    CommResult.reply (py_dict_repr (get_user_preferences db)) db
  else
    CommResult.silent db

/-- One accepted connection: decode the received text, split on spaces,
dispatch. -/
def handle_connection (msg : List Char) (db : Database) : CommResult :=
  handle_command (py_split ' ' [] msg) db

/-- First tokens recognised by the dispatch chain. -/
def known_verbs : List (List Char) :=
  [("get_alarm_state").data, ("set_alarm_state").data, ("set_active_state").data,
   ("set_wakeup_hour").data, ("set_wakeup_minute").data, ("set_wakeup_window").data,
   ("set_utc_offset").data, ("get_user_preferences").data]

/-- The verbs whose branch evaluates `int(command[1])`. -/
def set_int_verbs : List (List Char) :=
  [("set_alarm_state").data, ("set_active_state").data, ("set_wakeup_hour").data,
   ("set_wakeup_minute").data, ("set_wakeup_window").data, ("set_utc_offset").data]

/-!
Theorems settling the claims.
-/

/-- C9: provisioning (`server_setup.create_database`) initialises the
preference and server-state fields to exactly wakeup_hour=16,
wakeup_minute=0, utc_offset=+2, wakeup_window=5, active=false (0),
alarm_state=false (0). -/
theorem c9_provision_defaults :
    create_database.user_preferences.wakeup_time_hour = 16 ∧
    create_database.user_preferences.wakeup_time_minute = 0 ∧
    create_database.user_preferences.utc_offset = 2 ∧
    create_database.user_preferences.wakeup_window = 5 ∧
    create_database.user_preferences.active_state = 0 ∧
    create_database.server_settings.alarm_state = 0 := by
  refine ⟨rfl, rfl, rfl, rfl, rfl, rfl⟩

/-- C10: at every server startup the state resets run unconditionally before
the main loop's first tick: whatever values the store persisted, afterwards
`active_state = 0` and `alarm_state = 0` — the server never starts armed or
ringing. -/
theorem c10_startup_reset (db : Database) :
    get_active_state (startup_state_reset db) = 0 ∧
    get_alarm_state (startup_state_reset db) = 0 := by
  exact ⟨rfl, rfl⟩

/-- C8: `silence()` (the `set_alarm_state 0` path) is idempotent: after one
call `alarm_state` is 0, after two calls in a row it is 0 both times, the
second call changes nothing, and on a store that is already idle it is a
no-op. -/
theorem c8_silence_idempotent (db : Database) :
    get_alarm_state (silence db) = 0 ∧
    get_alarm_state (silence (silence db)) = 0 ∧
    silence (silence db) = silence db ∧
    (get_alarm_state db = 0 → silence db = db) := by
  refine ⟨rfl, rfl, rfl, fun h => ?_⟩
  cases db with
  | mk ss up =>
    cases ss
    simp only [silence, set_alarm_state]
    simp only [get_alarm_state] at h
    simp_all

/-- Witness for C8 at the provisioned store (already idle): the
idle-is-a-no-op hypothesis is discharged by `rfl`. -/
theorem c8_witness :
    get_alarm_state (silence create_database) = 0 ∧
    silence (silence create_database) = silence create_database ∧
    silence create_database = create_database :=
  ⟨(c8_silence_idempotent create_database).1,
   (c8_silence_idempotent create_database).2.2.1,
   (c8_silence_idempotent create_database).2.2.2 rfl⟩

/-- C2 counterexample: the claim says an out-of-range value makes the set
fail with `InvalidValue`, leaving the stored field unchanged.  On the code,
`set_wakeup_hour 99`, `set_wakeup_minute 75` and `set_wakeup_window (-3)`
all store the out-of-range value: the stored state does change. -/
theorem c2_counterexample :
    (set_wakeup_hour 99 create_database).user_preferences.wakeup_time_hour = 99 ∧
    set_wakeup_hour 99 create_database ≠ create_database ∧
    (set_wakeup_minute 75 create_database).user_preferences.wakeup_time_minute = 75 ∧
    set_wakeup_minute 75 create_database ≠ create_database ∧
    (set_wakeup_window (-3) create_database).user_preferences.wakeup_window = -3 ∧
    set_wakeup_window (-3) create_database ≠ create_database := by
  refine ⟨rfl, by decide, rfl, by decide, rfl, by decide⟩

/-- C2 amended: the setters perform no range validation at all.  For every
integer `v` — in range or not — `set_wakeup_hour`/`set_wakeup_minute`/
`set_wakeup_window` stores `v`, every subsequent get returns the new value
(read-after-write), and no other preference field is touched.  In
particular, for in-range `v` the set succeeds and the new value is visible
to subsequent gets, as claimed; but there is no `InvalidValue` failure, and
out-of-range sets do change the stored state. -/
theorem c2_sets_store_unvalidated (v : Int) (db : Database) :
    (set_wakeup_hour v db).user_preferences.wakeup_time_hour = v ∧
    (load_settings_minimal (set_wakeup_hour v db)).1 = v ∧
    (set_wakeup_minute v db).user_preferences.wakeup_time_minute = v ∧
    (load_settings_minimal (set_wakeup_minute v db)).2.1 = v ∧
    get_wakeup_window (set_wakeup_window v db) = v ∧
    (set_wakeup_hour v db).user_preferences.wakeup_time_minute
      = db.user_preferences.wakeup_time_minute ∧
    (set_wakeup_hour v db).user_preferences.wakeup_window
      = db.user_preferences.wakeup_window ∧
    (set_wakeup_minute v db).user_preferences.wakeup_time_hour
      = db.user_preferences.wakeup_time_hour ∧
    (set_wakeup_window v db).user_preferences.wakeup_time_hour
      = db.user_preferences.wakeup_time_hour := by
  exact ⟨rfl, rfl, rfl, rfl, rfl, rfl, rfl, rfl, rfl⟩

/-- C4: for stored wakeup_hour ∈ [0,23], wakeup_minute ∈ [0,59] and every
current time-of-day, `seconds_until_wakeup_time` equals
`((wakeup_hour*60+wakeup_minute)*60 - current_seconds_of_day) mod 86400`
and is non-negative; a wakeup time already past today wraps to tomorrow. -/
theorem c4_seconds_until_wakeup (db : Database) (curHour curMinute curSecond : Int)
    (hh0 : 0 ≤ db.user_preferences.wakeup_time_hour)
    (hh1 : db.user_preferences.wakeup_time_hour ≤ 23)
    (hm0 : 0 ≤ db.user_preferences.wakeup_time_minute)
    (hm1 : db.user_preferences.wakeup_time_minute ≤ 59)
    (hch0 : 0 ≤ curHour) (hch1 : curHour ≤ 23)
    (hcm0 : 0 ≤ curMinute) (hcm1 : curMinute ≤ 59)
    (hcs0 : 0 ≤ curSecond) (hcs1 : curSecond ≤ 59) :
    seconds_until_wakeup_time db curHour curMinute curSecond =
      ((db.user_preferences.wakeup_time_hour * 60 +
        db.user_preferences.wakeup_time_minute) * 60 -
       current_time_in_seconds curHour curMinute curSecond) % 86400 ∧
    0 ≤ seconds_until_wakeup_time db curHour curMinute curSecond := by
  simp only [seconds_until_wakeup_time, current_time_in_seconds, convert_to_seconds,
    SECONDS_IN_A_DAY]
  constructor <;> (split_ifs <;> omega)

/-- Witness for C4: provisioned store (wakeup 16:00) at local time 17:00:00 —
the wakeup time has passed today, so the result wraps to 82800 seconds, the
next day's occurrence. -/
theorem c4_witness :
    seconds_until_wakeup_time create_database 17 0 0 =
      ((create_database.user_preferences.wakeup_time_hour * 60 +
        create_database.user_preferences.wakeup_time_minute) * 60 -
       current_time_in_seconds 17 0 0) % 86400 ∧
    0 ≤ seconds_until_wakeup_time create_database 17 0 0 :=
  c4_seconds_until_wakeup create_database 17 0 0 (by decide) (by decide) (by decide)
    (by decide) (by decide) (by decide) (by decide) (by decide) (by decide) (by decide)

/-- C5: on each poll tick of the main loop, alarm mode is entered (the tick
yields a countdown) iff `active` is truthy and
`seconds_left ≤ wakeup_window * 60`, with the countdown being exactly that
`seconds_left`; once entered, the countdown phase blocks for exactly the
entry-time `seconds_left` whatever database edits concurrent handlers make
during the wait (no preference is re-read), and only then sets
`alarm_state = 1` (ringing). -/
theorem c5_tick_and_countdown (db : Database) (curHour curMinute curSecond : Int)
    (c : Int) :
    (main_loop_tick db curHour curMinute curSecond = some c ↔
      (get_active_state db ≠ 0 ∧
       seconds_until_wakeup_time db curHour curMinute curSecond ≤
         get_wakeup_window db * 60 ∧
       c = seconds_until_wakeup_time db curHour curMinute curSecond)) ∧
    ∀ (edits : List (Database → Database)) (dbAtEntry : Database),
      (alarm_mode_countdown c edits dbAtEntry).2 = c ∧
      get_alarm_state (alarm_mode_countdown c edits dbAtEntry).1 = 1 := by
  constructor
  · constructor
    · intro h
      simp only [main_loop_tick] at h
      split_ifs at h with ha hw
      · simp only [Option.some.injEq] at h
        exact ⟨ha, hw, h.symm⟩
    · rintro ⟨ha, hw, rfl⟩
      simp only [main_loop_tick, ha, hw]
      simp [ha, hw]
  · intro edits dbAtEntry
    exact ⟨rfl, rfl⟩

/-- C6: whenever the stored `alarm_state` stops being 1 — in particular when
a `set_alarm_state 0` command makes it false — the ringing loop exits at the
very next loop check (within one ring cycle: no later than the first reading
that is 0), and the epilogue then leaves the buzzers off, `alarm_state = 0`
and `active_state = 0` (back to IDLE). -/
theorem c6_ring_loop_exits (readings : List Int) (i : Nat)
    (h : readings.get? i = some 0) :
    (∃ k, k ≤ i ∧ ring_loop_cycles readings = some k) ∧
    ∀ db : Database,
      get_alarm_state (alarm_mode_finish db).1 = 0 ∧
      get_active_state (alarm_mode_finish db).1 = 0 ∧
      (alarm_mode_finish db).2.buzzer1 = false ∧
      (alarm_mode_finish db).2.buzzer2 = false := by
  constructor
  · induction readings generalizing i with
    | nil => simp at h
    | cons r rs ih =>
      cases i with
      | zero =>
        simp only [List.get?] at h
        have hr : r = 0 := by exact Option.some.inj h
        refine ⟨0, Nat.le_refl 0, ?_⟩
        simp [ring_loop_cycles, hr]
      | succ n =>
        simp only [List.get?] at h
        by_cases hr : r = 1
        · obtain ⟨k, hk, hc⟩ := ih n h
          refine ⟨k + 1, by omega, ?_⟩
          simp [ring_loop_cycles, hr, hc]
        · exact ⟨0, Nat.zero_le _, by simp [ring_loop_cycles, hr]⟩
  · intro db
    exact ⟨rfl, rfl, rfl, rfl⟩

/-- Witness for C6: readings 1, 1, 0 — the loop runs two full cycles and
exits at the third check, no later than the index where the 0 appears. -/
theorem c6_witness :
    (∃ k, k ≤ 2 ∧ ring_loop_cycles [1, 1, 0] = some k) ∧
    ∀ db : Database,
      get_alarm_state (alarm_mode_finish db).1 = 0 ∧
      get_active_state (alarm_mode_finish db).1 = 0 ∧
      (alarm_mode_finish db).2.buzzer1 = false ∧
      (alarm_mode_finish db).2.buzzer2 = false :=
  c6_ring_loop_exits [1, 1, 0] 2 (by decide)

/-- Evaluating the column-name extraction of `get_user_preferences` on the
stored `CREATE TABLE` text yields the five preference columns, in table
order, with `id` dropped. -/
theorem user_preferences_column_names_eval :
    user_preferences_column_names =
      [("wakeup_time_hour").data, ("wakeup_time_minute").data, ("utc_offset").data,
       ("wakeup_window").data, ("active_state").data] := by
  decide

/-- C7: for every valid hour ∈ [0,23] (resp. minute ∈ [0,59]),
`set_wakeup_hour` (resp. `set_wakeup_minute`) followed by
`get_user_preferences` yields the field→value encoding whose
`wakeup_time_hour` (resp. `wakeup_time_minute`) entry is exactly the value
just set, the other fields as stored, and no `id` entry. -/
theorem c7_set_get_roundtrip (v : Int) (db : Database) :
    (0 ≤ v → v ≤ 23 →
      get_user_preferences (set_wakeup_hour v db) =
        [(("wakeup_time_hour").data, v),
         (("wakeup_time_minute").data, db.user_preferences.wakeup_time_minute),
         (("utc_offset").data, db.user_preferences.utc_offset),
         (("wakeup_window").data, db.user_preferences.wakeup_window),
         (("active_state").data, db.user_preferences.active_state)] ∧
      ∀ p ∈ get_user_preferences (set_wakeup_hour v db), p.1 ≠ ("id").data) ∧
    (0 ≤ v → v ≤ 59 →
      get_user_preferences (set_wakeup_minute v db) =
        [(("wakeup_time_hour").data, db.user_preferences.wakeup_time_hour),
         (("wakeup_time_minute").data, v),
         (("utc_offset").data, db.user_preferences.utc_offset),
         (("wakeup_window").data, db.user_preferences.wakeup_window),
         (("active_state").data, db.user_preferences.active_state)] ∧
      ∀ p ∈ get_user_preferences (set_wakeup_minute v db), p.1 ≠ ("id").data) := by
  have hh : get_user_preferences (set_wakeup_hour v db) =
      [(("wakeup_time_hour").data, v),
       (("wakeup_time_minute").data, db.user_preferences.wakeup_time_minute),
       (("utc_offset").data, db.user_preferences.utc_offset),
       (("wakeup_window").data, db.user_preferences.wakeup_window),
       (("active_state").data, db.user_preferences.active_state)] := by
    simp only [get_user_preferences, user_preferences_column_names_eval,
      user_preferences_row, set_wakeup_hour]
    rfl
  have hm : get_user_preferences (set_wakeup_minute v db) =
      [(("wakeup_time_hour").data, db.user_preferences.wakeup_time_hour),
       (("wakeup_time_minute").data, v),
       (("utc_offset").data, db.user_preferences.utc_offset),
       (("wakeup_window").data, db.user_preferences.wakeup_window),
       (("active_state").data, db.user_preferences.active_state)] := by
    simp only [get_user_preferences, user_preferences_column_names_eval,
      user_preferences_row, set_wakeup_minute]
    rfl
  refine ⟨fun _ _ => ⟨hh, ?_⟩, fun _ _ => ⟨hm, ?_⟩⟩
  · intro p hp
    rw [hh] at hp
    simp only [List.mem_cons, List.not_mem_nil, or_false] at hp
    rcases hp with rfl | rfl | rfl | rfl | rfl <;> simp
  · intro p hp
    rw [hm] at hp
    simp only [List.mem_cons, List.not_mem_nil, or_false] at hp
    rcases hp with rfl | rfl | rfl | rfl | rfl <;> simp

/-- Witness for C7: hour 7 and minute 30 on the provisioned store. -/
theorem c7_witness :
    get_user_preferences (set_wakeup_hour 7 create_database) =
      [(("wakeup_time_hour").data, 7), (("wakeup_time_minute").data, 0),
       (("utc_offset").data, 2), (("wakeup_window").data, 5),
       (("active_state").data, 0)] ∧
    get_user_preferences (set_wakeup_minute 30 create_database) =
      [(("wakeup_time_hour").data, 16), (("wakeup_time_minute").data, 30),
       (("utc_offset").data, 2), (("wakeup_window").data, 5),
       (("active_state").data, 0)] :=
  ⟨((c7_set_get_roundtrip 7 create_database).1 (by decide) (by decide)).1,
   ((c7_set_get_roundtrip 30 create_database).2 (by decide) (by decide)).1⟩

/-- C1 counterexample: the claim says a known `set_*` verb with a missing or
non-integer argument closes the connection without reply and without
raising, the acceptor processing the next connection.  On the code,
`set_wakeup_hour five` makes `int(command[1])` raise `ValueError` and a bare
`set_wakeup_hour` makes `command[1]` raise `IndexError`; `communication` has
no exception handler, so the acceptor loop exits.  Only the unknown-token
case (`flurble 3`) is closed silently. -/
theorem c1_counterexample :
    handle_connection (("set_wakeup_hour five").data) create_database
      = CommResult.exn create_database ∧
    handle_connection (("set_wakeup_hour").data) create_database
      = CommResult.exn create_database ∧
    acceptor_continues (CommResult.exn create_database) = false ∧
    handle_connection (("flurble 3").data) create_database
      = CommResult.silent create_database := by
  refine ⟨by decide, by decide, rfl, by decide⟩

/-- C1 amended: a command whose first token is unknown is closed without a
reply and without raising, and the acceptor loop processes the next
connection; but a command whose first token is a known `set_*` verb with a
missing or non-integer argument raises an uncaught exception
(`IndexError`/`ValueError` from `int(command[1])`): no reply, no state
change, and the acceptor loop exits instead of continuing. -/
theorem c1_malformed_commands (command : List (List Char)) (db : Database) :
    (command.headD [] ∉ known_verbs →
      handle_command command db = CommResult.silent db ∧
      acceptor_continues (handle_command command db) = true) ∧
    (∀ verb ∈ set_int_verbs, command.headD [] = verb →
      (command[1]? = none ∨ ∃ a, command[1]? = some a ∧ py_int a = none) →
      handle_command command db = CommResult.exn db ∧
      acceptor_continues (handle_command command db) = false) := by
  constructor
  · intro h
    simp only [known_verbs, List.mem_cons, List.not_mem_nil, or_false, not_or] at h
    obtain ⟨h1, h2, h3, h4, h5, h6, h7, h8⟩ := h
    have hres : handle_command command db = CommResult.silent db := by
      unfold handle_command
      rw [if_neg h1, if_neg h2, if_neg h3, if_neg h4, if_neg h5, if_neg h6, if_neg h7,
        if_neg h8]
    exact ⟨hres, by rw [hres]; rfl⟩
  · intro verb hv hc0 harg
    simp only [set_int_verbs, List.mem_cons, List.not_mem_nil, or_false] at hv
    have hres : handle_command command db = CommResult.exn db := by
      rcases harg with hnone | ⟨a, ha, hpa⟩
      · rcases hv with rfl | rfl | rfl | rfl | rfl | rfl <;>
          (unfold handle_command; rw [hc0]; simp [set_branch, hnone])
      · rcases hv with rfl | rfl | rfl | rfl | rfl | rfl <;>
          (unfold handle_command; rw [hc0]; simp [set_branch, ha, hpa])
    exact ⟨hres, by rw [hres]; rfl⟩

/-- Witness for C1 (amended): `set_wakeup_hour five` raises and stops the
acceptor. -/
theorem c1_witness :
    handle_command [("set_wakeup_hour").data, ("five").data] create_database
      = CommResult.exn create_database ∧
    acceptor_continues (handle_command [("set_wakeup_hour").data, ("five").data]
      create_database) = false :=
  (c1_malformed_commands [("set_wakeup_hour").data, ("five").data] create_database).2
    (("set_wakeup_hour").data) (by decide) rfl
    (Or.inr ⟨("five").data, rfl, by decide⟩)

/-- C3 counterexample: the stored `alarm_state` is reachable outside {0,1} —
the handler applies `int(command[1])` with no restriction, so the connection
`set_alarm_state 2` stores 2, and `get_alarm_state` then replies `"2"`,
which is neither `"0"` nor `"1"`. -/
theorem c3_counterexample :
    handle_command [("set_alarm_state").data, ("2").data] create_database
      = CommResult.silent (set_alarm_state 2 create_database) ∧
    handle_command [("get_alarm_state").data] (set_alarm_state 2 create_database)
      = CommResult.reply (("2").data) (set_alarm_state 2 create_database) ∧
    ("2").data ≠ ("0").data ∧ ("2").data ≠ ("1").data := by
  refine ⟨by decide, by decide, by decide, by decide⟩

/-- C3 amended: the `get_alarm_state` reply body is the decimal string of
the stored `alarm_state`.  Whenever that stored value is 0 or 1 — which
covers every state the scheduler/alarm internals produce and every
`set_alarm_state` command with argument 0 or 1 — the reply is exactly `"0"`
when not ringing and `"1"` when ringing; an out-of-protocol argument such as
2 is stored verbatim and echoed back (see the counterexample). -/
theorem c3_alarm_state_reply (db : Database)
    (h : get_alarm_state db = 0 ∨ get_alarm_state db = 1) :
    handle_command [("get_alarm_state").data] db
      = CommResult.reply
          (if get_alarm_state db = 1 then ("1").data else ("0").data) db := by
  have hc : (([("get_alarm_state").data].headD []) = ("get_alarm_state").data) := rfl
  rcases h with h0 | h0 <;> (unfold handle_command; rw [if_pos hc, h0]; rfl)

/-- Witness for C3 (amended): the provisioned store is IDLE, so the reply is
`"0"`. -/
theorem c3_witness :
    handle_command [("get_alarm_state").data] create_database
      = CommResult.reply
          (if get_alarm_state create_database = 1 then ("1").data else ("0").data)
          create_database :=
  c3_alarm_state_reply create_database (Or.inl rfl)
